import Mathlib

/-!
Verification of `src/dem_getter/dem_getter_merge_warp_function.py`.

The file defines a shallow embedding of the single function
`merge_warp_dems`, a thin wrapper around `gdal.Warp`.  The external
collaborators (`os.path` helpers and `gdal.Warp` itself) are abstracted as
fields of an `ExtLib` structure; the process environment is modelled by the
`Env` structure (the `PROJ_LIB` variable, possibly absent, and the `PATH`
string).  Numbers that Python passes through untouched (extent coordinates,
pixel size, no-data value, EPSG codes, thread counts) are modelled as ℤ.

Python-runtime failure points that the wrapper itself can hit are modelled
explicitly as `PyError` values:
  * `NumThreads > 1` with `NumThreads = None` raises `TypeError` in Python 3;
  * `os.environ['PATH'].split(';')[1]` raises `IndexError` when the split
    yields fewer than two entries;
  * `workingmemory` is assigned only on the `NumThreads > 1` branch, so the
    unconditional reference in the `gdal.WarpOptions` call raises
    `UnboundLocalError` on the other branch.
-/

namespace DemGetter

/-- Python runtime errors that `merge_warp_dems` can raise locally, before
the external warp call is reached. -/
inductive PyError where
  | typeError
  | indexError
  | unboundLocalError
deriving DecidableEq

/-- The slice of the process environment the function reads and writes:
the `PROJ_LIB` variable (present or absent) and the `PATH` string. -/
structure Env where
  projLib : Option String
  path : String
deriving DecidableEq

/-- Python `str.split(sep)` on character lists: one piece per separator
occurrence plus one, empty pieces kept.  Never returns `[]`. -/
def splitChar (sep : Char) : List Char → List (List Char)
  | [] => [[]]
  | c :: cs =>
    if c = sep then [] :: splitChar sep cs
    else
      match splitChar sep cs with
      | [] => [[]]
      | l :: ls => (c :: l) :: ls

/-- Python `s.split(sep)` for a one-character separator, on strings. -/
def pySplit (sep : Char) (s : String) : List String :=
  (splitChar sep s.data).map String.mk

/-- The keyword arguments handed to `gdal.WarpOptions` (lines 64–76 of the
source).  Numeric arguments are modelled as ℤ. -/
structure WarpOptions where
  outputBounds : Option (List Int)
  outputBoundsSRS : Option String
  format : String
  xRes : Option Int
  yRes : Option Int
  resampleAlg : String
  dstSRS : Option String
  dstNodata : Option Int
  srcNodata : Option Int
  multithread : Bool
  warpMemoryLimit : String
  creationOptions : List String
deriving DecidableEq

/-- One invocation of `gdal.Warp`: destination path, source paths, and the
assembled options (line 77 of the source). -/
structure WarpInvocation where
  destName : String
  srcNames : List String
  options : WarpOptions
deriving DecidableEq

/-- The external collaborators, abstracted: `pardirAbs p` models
`os.path.abspath(os.path.join(p, os.pardir))`, `join2` models a binary
`os.path.join`, and `gdalWarp` models `gdal.Warp`, producing an opaque
dataset handle of type `H`. -/
structure ExtLib (H : Type) where
  pardirAbs : String → String
  join2 : String → String → String
  gdalWarp : String → List String → WarpOptions → H

/-- Lines 34–38 of the source: if `PROJ_LIB` is absent, guess it from the
second `';'`-separated entry of `PATH` (one directory up, then
`share/proj`); the index access raises `IndexError` when fewer than two
entries exist.  If `PROJ_LIB` is present the environment is untouched. -/
def projFixup {H : Type} (lib : ExtLib H) (env : Env) : Except PyError Env :=
  match env.projLib with
  | some _ => .ok env
  | none =>
    match (pySplit ';' env.path).get? 1 with
    | none => .error .indexError
    | some envPath =>
      let envPath2 := lib.pardirAbs envPath
      let projPath := lib.join2 (lib.join2 envPath2 "share") "proj"
      .ok { env with projLib := some projPath }

/-- Lines 40–83 of the source: everything after the `PROJ_LIB` fix-up.
Python defaults (not repeated here, all arguments are explicit):
`outExtent=None`, `outEPSG=None`, `pixelSize=None`,
`doReturnGdalSourceResult=False`, `resampleAlg='cubic'`,
`noDataValue=None`, `format='GTiff'`, `compression=None`,
`NumThreads=None`.

The result is either the raised `PyError` or the `gdal.Warp` invocation
made, together with the value the function returns (`None` or the dataset
handle).  Notes kept from the source: `outExtent` is reshaped as
`[outExtent[0][0], outExtent[1][0], outExtent[0][1], outExtent[1][1]]`;
`int(NumThreads)` on line 55 is the identity on an integer thread count;
`workingmemory` is a Python local that is assigned only on the
`NumThreads > 1` branch, modelled as an `Option String` that is `none`
when unassigned, so that the reference on line 74 raises
`UnboundLocalError` exactly when the else-branch ran. -/
def warpBody {H : Type} (lib : ExtLib H)
    (inFileNames : List String) (outFileName : String)
    (outExtent : Option ((Int × Int) × (Int × Int)))
    (outEPSG : Option Int) (pixelSize : Option Int)
    (doReturnGdalSourceResult : Bool) (resampleAlg : String)
    (noDataValue : Option Int) (format : String)
    (compression : Option String) (NumThreads : Option Int) :
    Except PyError (WarpInvocation × Option H) :=
  let outExtentL : Option (List Int) :=
    match outExtent with
    | none => none
    | some ext => some [ext.1.1, ext.2.1, ext.1.2, ext.2.2]
  let outEPSGS : Option String :=
    match outEPSG with
    | none => none
    | some code => some ("EPSG:" ++ toString code)
  let creationOptions0 : List String := ["BIGTIFF=YES", "TILED=YES"]
  match NumThreads with
  | none => .error .typeError
  | some nt =>
    let branch :=
      if nt > 1 then
        (true, (some "80%" : Option String),
          creationOptions0 ++ ["NUM_THREADS=" ++ toString nt])
      else
        (false, (none : Option String), creationOptions0)
    let multithread := branch.1
    let workingmemory := branch.2.1
    let creationOptions1 :=
      match compression with
      | some c => branch.2.2 ++ ["COMPRESS=" ++ c]
      | none => branch.2.2
    match workingmemory with
    | none => .error .unboundLocalError
    | some wm =>
      let wrpOptions : WarpOptions :=
        { outputBounds := outExtentL
          outputBoundsSRS := outEPSGS
          format := format
          xRes := pixelSize
          yRes := pixelSize
          resampleAlg := resampleAlg
          dstSRS := outEPSGS
          dstNodata := noDataValue
          srcNodata := noDataValue
          multithread := multithread
          warpMemoryLimit := wm
          creationOptions := creationOptions1 }
      let gridSource := lib.gdalWarp outFileName inFileNames wrpOptions
      .ok (⟨outFileName, inFileNames, wrpOptions⟩,
        if doReturnGdalSourceResult then some gridSource else none)

/-- The wrapper itself: run the `PROJ_LIB` fix-up (which may raise and
leave the environment untouched), then the body above. -/
def merge_warp_dems {H : Type} (lib : ExtLib H) (env0 : Env)
    (inFileNames : List String) (outFileName : String)
    (outExtent : Option ((Int × Int) × (Int × Int)))
    (outEPSG : Option Int) (pixelSize : Option Int)
    (doReturnGdalSourceResult : Bool) (resampleAlg : String)
    (noDataValue : Option Int) (format : String)
    (compression : Option String) (NumThreads : Option Int) :
    Env × Except PyError (WarpInvocation × Option H) :=
  match projFixup lib env0 with
  | .error e => (env0, .error e)
  | .ok env1 =>
    (env1, warpBody lib inFileNames outFileName outExtent outEPSG pixelSize
      doReturnGdalSourceResult resampleAlg noDataValue format compression
      NumThreads)

/-- Spec-side reshaping of the output extent: a pair of ranges
`((minX, maxX), (minY, maxY))` flattened into `(minX, minY, maxX, maxY)`,
stated from the spec's words for comparison with the code. -/
def specFlatBounds : Option ((Int × Int) × (Int × Int)) → Option (List Int)
  | none => none
  | some ((mnx, mxx), (mny, mxy)) => some [mnx, mny, mxx, mxy]

/-- Spec-side CRS formatting: an integer code `n` becomes the string
`EPSG:<n>`, absent stays absent. -/
def specEPSGString : Option Int → Option String
  | none => none
  | some n => some ("EPSG:" ++ toString n)

/-- A concrete instantiation of the external collaborators, with `Nat`
dataset handles, used to evaluate the embedding on concrete inputs. -/
def natLib : ExtLib Nat :=
  { pardirAbs := fun s => s ++ "/.."
    join2 := fun a b => a ++ "/" ++ b
    gdalWarp := fun _ _ _ => 37 }

/-- An environment in which `PROJ_LIB` is already set. -/
def envSet : Env := ⟨some "/opt/share/proj", "C:\\a;C:\\b"⟩

/-- The options record produced on the `NumThreads > 1` path, in normal
form, for use in the lemmas below. -/
def highOptions (ext : Option ((Int × Int) × (Int × Int))) (epsg : Option Int)
    (px : Option Int) (alg : String) (nd : Option Int) (fmt : String)
    (comp : Option String) (nt : Int) : WarpOptions :=
  { outputBounds :=
      match ext with
      | none => none
      | some e => some [e.1.1, e.2.1, e.1.2, e.2.2]
    outputBoundsSRS :=
      match epsg with
      | none => none
      | some code => some ("EPSG:" ++ toString code)
    format := fmt
    xRes := px
    yRes := px
    resampleAlg := alg
    dstSRS :=
      match epsg with
      | none => none
      | some code => some ("EPSG:" ++ toString code)
    dstNodata := nd
    srcNodata := nd
    multithread := true
    warpMemoryLimit := "80%"
    creationOptions :=
      match comp with
      | some c =>
        (["BIGTIFF=YES", "TILED=YES"] ++ ["NUM_THREADS=" ++ toString nt])
          ++ ["COMPRESS=" ++ c]
      | none => ["BIGTIFF=YES", "TILED=YES"] ++ ["NUM_THREADS=" ++ toString nt] }

lemma projFixup_of_some {H : Type} (lib : ExtLib H) (env : Env) (v : String)
    (h : env.projLib = some v) : projFixup lib env = .ok env := by
  unfold projFixup
  rw [h]

lemma merge_of_fixup_ok {H : Type} (lib : ExtLib H) (env env1 : Env)
    (hfix : projFixup lib env = .ok env1) (fs : List String) (out : String)
    (ext : Option ((Int × Int) × (Int × Int))) (epsg : Option Int)
    (px : Option Int) (ret : Bool) (alg : String) (nd : Option Int)
    (fmt : String) (comp : Option String) (nth : Option Int) :
    merge_warp_dems lib env fs out ext epsg px ret alg nd fmt comp nth
      = (env1, warpBody lib fs out ext epsg px ret alg nd fmt comp nth) := by
  unfold merge_warp_dems
  rw [hfix]

lemma warpBody_high {H : Type} (lib : ExtLib H) (fs : List String)
    (out : String) (ext : Option ((Int × Int) × (Int × Int)))
    (epsg : Option Int) (px : Option Int) (ret : Bool) (alg : String)
    (nd : Option Int) (fmt : String) (comp : Option String) (nt : Int)
    (hnt : 1 < nt) :
    warpBody lib fs out ext epsg px ret alg nd fmt comp (some nt)
      = .ok (⟨out, fs, highOptions ext epsg px alg nd fmt comp nt⟩,
          if ret then
            some (lib.gdalWarp out fs (highOptions ext epsg px alg nd fmt comp nt))
          else none) := by
  simp only [warpBody]
  rw [if_pos hnt]
  cases ext <;> cases epsg <;> cases comp <;> rfl

lemma warpBody_low {H : Type} (lib : ExtLib H) (fs : List String)
    (out : String) (ext : Option ((Int × Int) × (Int × Int)))
    (epsg : Option Int) (px : Option Int) (ret : Bool) (alg : String)
    (nd : Option Int) (fmt : String) (comp : Option String) (nt : Int)
    (hnt : nt ≤ 1) :
    warpBody lib fs out ext epsg px ret alg nd fmt comp (some nt)
      = .error .unboundLocalError := by
  simp only [warpBody]
  rw [if_neg (show ¬ nt > 1 by omega)]

lemma data_head_compress (c : String) :
    ("COMPRESS=" ++ c).data.head? = some 'C' := by
  obtain ⟨cl⟩ := c
  rfl

lemma data_head_numthreads (s : String) :
    ("NUM_THREADS=" ++ s).data.head? = some 'N' := by
  obtain ⟨sl⟩ := s
  rfl

lemma compress_ne_of_head (c : String) (t : String)
    (hc : t.data.head? ≠ some 'C') : "COMPRESS=" ++ c ≠ t := by
  intro h
  have h2 : ("COMPRESS=" ++ c).data.head? = t.data.head? := by rw [h]
  rw [data_head_compress] at h2
  exact hc h2.symm

/-- C1: the claim says a call with `NumThreads` absent (the documented
default `None`) or ≤ 1 must not fail and must disable multithreading with
no working-memory option.  The code violates this: with `NumThreads = None`
the comparison `NumThreads > 1` raises `TypeError`, and with an integer
`NumThreads ≤ 1` the unconditional `workingmemory` reference raises
`UnboundLocalError`; neither call reaches the external warp. -/
theorem c1_threadCount_crashes :
    (merge_warp_dems natLib envSet ["a.tif"] "out.tif" none none none false
      "cubic" none "GTiff" none none).2 = .error .typeError
    ∧ (merge_warp_dems natLib envSet ["a.tif"] "out.tif" none none none false
      "cubic" none "GTiff" none (some 1)).2 = .error .unboundLocalError :=
  ⟨rfl, rfl⟩

/-- C2: whenever the fix-up step succeeds and `NumThreads > 1`, the options
handed to the external warp have the multithreading flag true, the working
memory budget set to the string `80%`, and `NUM_THREADS=<n>` present in the
creation-options list. -/
theorem c2_threadCount_multithread_options {H : Type} (lib : ExtLib H)
    (env env1 : Env) (hfix : projFixup lib env = .ok env1)
    (fs : List String) (out : String)
    (ext : Option ((Int × Int) × (Int × Int))) (epsg : Option Int)
    (px : Option Int) (ret : Bool) (alg : String) (nd : Option Int)
    (fmt : String) (comp : Option String) (nt : Int) (hnt : 1 < nt) :
    ∃ inv handle,
      (merge_warp_dems lib env fs out ext epsg px ret alg nd fmt comp
        (some nt)).2 = .ok (inv, handle)
      ∧ inv.options.multithread = true
      ∧ inv.options.warpMemoryLimit = "80%"
      ∧ ("NUM_THREADS=" ++ toString nt) ∈ inv.options.creationOptions := by
  rw [merge_of_fixup_ok lib env env1 hfix]
  refine ⟨_, _, warpBody_high lib fs out ext epsg px ret alg nd fmt comp nt hnt,
    rfl, rfl, ?_⟩
  cases comp <;> simp [highOptions]

/-- C2 witness: a concrete run with `NumThreads = 4`. -/
theorem c2_witness :
    ∃ inv handle,
      (merge_warp_dems natLib envSet ["a.tif", "b.tif"] "out.tif" none none
        none false "cubic" none "GTiff" none (some 4)).2 = .ok (inv, handle)
      ∧ inv.options.multithread = true
      ∧ inv.options.warpMemoryLimit = "80%"
      ∧ ("NUM_THREADS=" ++ toString (4 : Int)) ∈ inv.options.creationOptions :=
  c2_threadCount_multithread_options natLib envSet envSet rfl
    ["a.tif", "b.tif"] "out.tif" none none none false "cubic" none "GTiff"
    none 4 (by decide)

/-- C3: whenever the fix-up step succeeds and an integer `NumThreads ≤ 1`
is supplied, the `workingmemory` local is never assigned, so constructing
the warp options raises `UnboundLocalError` and the external warp call is
never reached. -/
theorem c3_low_threadCount_unbound_local {H : Type} (lib : ExtLib H)
    (env env1 : Env) (hfix : projFixup lib env = .ok env1)
    (fs : List String) (out : String)
    (ext : Option ((Int × Int) × (Int × Int))) (epsg : Option Int)
    (px : Option Int) (ret : Bool) (alg : String) (nd : Option Int)
    (fmt : String) (comp : Option String) (nt : Int) (hnt : nt ≤ 1) :
    (merge_warp_dems lib env fs out ext epsg px ret alg nd fmt comp
      (some nt)).2 = .error .unboundLocalError := by
  rw [merge_of_fixup_ok lib env env1 hfix]
  exact warpBody_low lib fs out ext epsg px ret alg nd fmt comp nt hnt

/-- C3 witness: a concrete run with `NumThreads = 1`. -/
theorem c3_witness :
    (merge_warp_dems natLib envSet ["a.tif"] "out.tif" none none none false
      "cubic" none "GTiff" none (some 1)).2 = .error .unboundLocalError :=
  c3_low_threadCount_unbound_local natLib envSet envSet rfl ["a.tif"]
    "out.tif" none none none false "cubic" none "GTiff" none 1 (by decide)

/-- C4: whenever the external warp is reached, the bounds it receives are
the flat reordering `(minX, minY, maxX, maxY)` of the supplied
`((minX, maxX), (minY, maxY))` extent, and absent when the extent is
absent. -/
theorem c4_output_extent_flattening {H : Type} (lib : ExtLib H)
    (env env1 : Env) (hfix : projFixup lib env = .ok env1)
    (fs : List String) (out : String)
    (ext : Option ((Int × Int) × (Int × Int))) (epsg : Option Int)
    (px : Option Int) (ret : Bool) (alg : String) (nd : Option Int)
    (fmt : String) (comp : Option String) (nt : Int) (hnt : 1 < nt) :
    ∃ inv handle,
      (merge_warp_dems lib env fs out ext epsg px ret alg nd fmt comp
        (some nt)).2 = .ok (inv, handle)
      ∧ inv.options.outputBounds = specFlatBounds ext := by
  rw [merge_of_fixup_ok lib env env1 hfix]
  refine ⟨_, _, warpBody_high lib fs out ext epsg px ret alg nd fmt comp nt hnt,
    ?_⟩
  cases ext with
  | none => rfl
  | some e =>
    obtain ⟨⟨a, b⟩, c, d⟩ := e
    rfl

/-- C4 witness: extent `((10,20),(30,40))` becomes bounds `[10,30,20,40]`. -/
theorem c4_witness :
    ∃ inv handle,
      (merge_warp_dems natLib envSet ["a.tif"] "out.tif"
        (some ((10, 20), (30, 40))) none none false "cubic" none "GTiff"
        none (some 4)).2 = .ok (inv, handle)
      ∧ inv.options.outputBounds = some [10, 30, 20, 40] :=
  c4_output_extent_flattening natLib envSet envSet rfl ["a.tif"] "out.tif"
    (some ((10, 20), (30, 40))) none none false "cubic" none "GTiff" none 4
    (by decide)

/-- C5: whenever the external warp is reached, an integer CRS code `n`
arrives as the string `EPSG:<n>` in both the bounds-reference-system field
and the destination-reprojection field, and both fields are absent when the
code is absent. -/
theorem c5_epsg_formatting {H : Type} (lib : ExtLib H)
    (env env1 : Env) (hfix : projFixup lib env = .ok env1)
    (fs : List String) (out : String)
    (ext : Option ((Int × Int) × (Int × Int))) (epsg : Option Int)
    (px : Option Int) (ret : Bool) (alg : String) (nd : Option Int)
    (fmt : String) (comp : Option String) (nt : Int) (hnt : 1 < nt) :
    ∃ inv handle,
      (merge_warp_dems lib env fs out ext epsg px ret alg nd fmt comp
        (some nt)).2 = .ok (inv, handle)
      ∧ inv.options.outputBoundsSRS = specEPSGString epsg
      ∧ inv.options.dstSRS = specEPSGString epsg := by
  rw [merge_of_fixup_ok lib env env1 hfix]
  refine ⟨_, _, warpBody_high lib fs out ext epsg px ret alg nd fmt comp nt hnt,
    ?_, ?_⟩ <;> cases epsg <;> rfl

/-- C5 witness: code 4326 arrives as the string `EPSG:4326` in both
fields. -/
theorem c5_witness :
    ∃ inv handle,
      (merge_warp_dems natLib envSet ["a.tif"] "out.tif" none (some 4326)
        none false "cubic" none "GTiff" none (some 4)).2 = .ok (inv, handle)
      ∧ inv.options.outputBoundsSRS = some "EPSG:4326"
      ∧ inv.options.dstSRS = some "EPSG:4326" :=
  c5_epsg_formatting natLib envSet envSet rfl ["a.tif"] "out.tif" none
    (some 4326) none false "cubic" none "GTiff" none 4 (by decide)

/-- C6: whenever the external warp is reached, the creation-options list
contains `BIGTIFF=YES` and `TILED=YES`, and contains a `COMPRESS=<name>`
entry exactly when the compression argument is non-absent. -/
theorem c6_creation_options {H : Type} (lib : ExtLib H)
    (env env1 : Env) (hfix : projFixup lib env = .ok env1)
    (fs : List String) (out : String)
    (ext : Option ((Int × Int) × (Int × Int))) (epsg : Option Int)
    (px : Option Int) (ret : Bool) (alg : String) (nd : Option Int)
    (fmt : String) (comp : Option String) (nt : Int) (hnt : 1 < nt) :
    ∃ inv handle,
      (merge_warp_dems lib env fs out ext epsg px ret alg nd fmt comp
        (some nt)).2 = .ok (inv, handle)
      ∧ "BIGTIFF=YES" ∈ inv.options.creationOptions
      ∧ "TILED=YES" ∈ inv.options.creationOptions
      ∧ ((∃ c, ("COMPRESS=" ++ c) ∈ inv.options.creationOptions)
          ↔ comp.isSome = true) := by
  rw [merge_of_fixup_ok lib env env1 hfix]
  refine ⟨_, _, warpBody_high lib fs out ext epsg px ret alg nd fmt comp nt hnt,
    ?_, ?_, ?_, ?_⟩
  · cases comp <;> simp [highOptions]
  · cases comp <;> simp [highOptions]
  · rintro ⟨c, hc⟩
    cases comp with
    | some c2 => rfl
    | none =>
      exfalso
      simp only [highOptions, List.mem_append, List.mem_cons,
        List.mem_singleton, List.not_mem_nil, or_false] at hc
      rcases hc with (h | h) | h
      · exact compress_ne_of_head c "BIGTIFF=YES" (by decide) h
      · exact compress_ne_of_head c "TILED=YES" (by decide) h
      · refine compress_ne_of_head c ("NUM_THREADS=" ++ toString nt) ?_ h
        rw [data_head_numthreads]
        decide
  · intro h
    cases comp with
    | none => simp at h
    | some c => exact ⟨c, by simp [highOptions]⟩

/-- C6 witness: with compression `LZW` the list holds all of `BIGTIFF=YES`,
`TILED=YES` and a `COMPRESS=` entry. -/
theorem c6_witness :
    ∃ inv handle,
      (merge_warp_dems natLib envSet ["a.tif"] "out.tif" none none none
        false "cubic" none "GTiff" (some "LZW") (some 4)).2
        = .ok (inv, handle)
      ∧ "BIGTIFF=YES" ∈ inv.options.creationOptions
      ∧ "TILED=YES" ∈ inv.options.creationOptions
      ∧ ((∃ c, ("COMPRESS=" ++ c) ∈ inv.options.creationOptions)
          ↔ (some "LZW").isSome = true) :=
  c6_creation_options natLib envSet envSet rfl ["a.tif"] "out.tif" none none
    none false "cubic" none "GTiff" (some "LZW") 4 (by decide)

/-- C7: when `PROJ_LIB` is already present in the environment, the call
leaves the environment exactly as it found it (the variable is written only
when absent). -/
theorem c7_projlib_preserved {H : Type} (lib : ExtLib H) (env : Env)
    (v : String) (h : env.projLib = some v) (fs : List String) (out : String)
    (ext : Option ((Int × Int) × (Int × Int))) (epsg : Option Int)
    (px : Option Int) (ret : Bool) (alg : String) (nd : Option Int)
    (fmt : String) (comp : Option String) (nth : Option Int) :
    (merge_warp_dems lib env fs out ext epsg px ret alg nd fmt comp nth).1
      = env := by
  rw [merge_of_fixup_ok lib env env (projFixup_of_some lib env v h)]

/-- C7 witness: a concrete call on an environment with `PROJ_LIB` set. -/
theorem c7_witness :
    (merge_warp_dems natLib envSet ["a.tif"] "out.tif" none none none false
      "cubic" none "GTiff" none (some 4)).1 = envSet :=
  c7_projlib_preserved natLib envSet "/opt/share/proj" rfl ["a.tif"]
    "out.tif" none none none false "cubic" none "GTiff" none (some 4)

/-- C8: when `PROJ_LIB` is absent and `PATH` splits on `';'` into fewer
than two entries, the index access in the heuristic raises `IndexError`
and no external warp call is made. -/
theorem c8_short_path_index_error {H : Type} (lib : ExtLib H) (env : Env)
    (h1 : env.projLib = none) (h2 : (pySplit ';' env.path).length < 2)
    (fs : List String) (out : String)
    (ext : Option ((Int × Int) × (Int × Int))) (epsg : Option Int)
    (px : Option Int) (ret : Bool) (alg : String) (nd : Option Int)
    (fmt : String) (comp : Option String) (nth : Option Int) :
    (merge_warp_dems lib env fs out ext epsg px ret alg nd fmt comp nth).2
      = .error .indexError := by
  have hg : (pySplit ';' env.path).get? 1 = none :=
    List.get?_eq_none.mpr (by omega)
  have hfix : projFixup lib env = .error .indexError := by
    unfold projFixup
    rw [h1, hg]
  unfold merge_warp_dems
  rw [hfix]

/-- C8 witness: a POSIX-style `PATH` with no `';'` has a single entry and
the call fails with `IndexError`. -/
theorem c8_witness :
    (merge_warp_dems natLib ⟨none, "/usr/bin:/bin"⟩ ["a.tif"] "out.tif" none
      none none false "cubic" none "GTiff" none (some 4)).2
      = .error .indexError :=
  c8_short_path_index_error natLib ⟨none, "/usr/bin:/bin"⟩ rfl (by decide)
    ["a.tif"] "out.tif" none none none false "cubic" none "GTiff" none
    (some 4)

/-- C9: whenever the external warp is reached, the function returns the
dataset handle produced by the warp call exactly when
`doReturnGdalSourceResult` is true, and returns nothing (dropping its only
reference to the handle) when it is false. -/
theorem c9_handle_return {H : Type} (lib : ExtLib H)
    (env env1 : Env) (hfix : projFixup lib env = .ok env1)
    (fs : List String) (out : String)
    (ext : Option ((Int × Int) × (Int × Int))) (epsg : Option Int)
    (px : Option Int) (ret : Bool) (alg : String) (nd : Option Int)
    (fmt : String) (comp : Option String) (nt : Int) (hnt : 1 < nt) :
    ∃ inv,
      (merge_warp_dems lib env fs out ext epsg px ret alg nd fmt comp
        (some nt)).2
        = .ok (inv,
            if ret then some (lib.gdalWarp out fs inv.options) else none) := by
  rw [merge_of_fixup_ok lib env env1 hfix]
  exact ⟨_, warpBody_high lib fs out ext epsg px ret alg nd fmt comp nt hnt⟩

/-- C9 witness: with the handle requested, the concrete run returns the
handle the concrete warp stub produces; the same theorem instantiated at
`false` yields `none`. -/
theorem c9_witness :
    (∃ inv,
      (merge_warp_dems natLib envSet ["a.tif"] "out.tif" none none none true
        "cubic" none "GTiff" none (some 4)).2
        = .ok (inv, some (natLib.gdalWarp "out.tif" ["a.tif"] inv.options)))
    ∧ (∃ inv,
      (merge_warp_dems natLib envSet ["a.tif"] "out.tif" none none none
        false "cubic" none "GTiff" none (some 4)).2 = .ok (inv, none)) :=
  ⟨c9_handle_return natLib envSet envSet rfl ["a.tif"] "out.tif" none none
    none true "cubic" none "GTiff" none 4 (by decide),
   c9_handle_return natLib envSet envSet rfl ["a.tif"] "out.tif" none none
    none false "cubic" none "GTiff" none 4 (by decide)⟩

/-- C10: when `PROJ_LIB` is absent and `PATH` has a second `';'`-separated
entry `p`, the call sets `PROJ_LIB` to `share/proj` joined under the parent
directory of `p`; and the split separator is the literal `';'`, so a
POSIX-style `':'`-separated search path counts as one single entry. -/
theorem c10_projlib_guess {H : Type} (lib : ExtLib H) (env : Env)
    (p : String) (h1 : env.projLib = none)
    (h2 : (pySplit ';' env.path).get? 1 = some p)
    (fs : List String) (out : String)
    (ext : Option ((Int × Int) × (Int × Int))) (epsg : Option Int)
    (px : Option Int) (ret : Bool) (alg : String) (nd : Option Int)
    (fmt : String) (comp : Option String) (nth : Option Int) :
    (merge_warp_dems lib env fs out ext epsg px ret alg nd fmt comp
      nth).1.projLib
      = some (lib.join2 (lib.join2 (lib.pardirAbs p) "share") "proj")
    ∧ pySplit ';' "/usr/local/bin:/usr/bin:/bin"
      = ["/usr/local/bin:/usr/bin:/bin"] := by
  have hfix : projFixup lib env
      = .ok { env with
          projLib := some (lib.join2 (lib.join2 (lib.pardirAbs p) "share")
            "proj") } := by
    unfold projFixup
    rw [h1, h2]
  constructor
  · rw [merge_of_fixup_ok lib env _ hfix]
  · rfl

/-- C10 witness: an ArcPro-style `PATH` whose second `';'`-separated entry
is `C:\two\Library\bin` leads to `PROJ_LIB = C:\two\Library\bin/../share/proj`
under the concrete path stubs. -/
theorem c10_witness :
    (merge_warp_dems natLib ⟨none, "C:\\one;C:\\two\\Library\\bin;C:\\three"⟩
      ["a.tif"] "out.tif" none none none false "cubic" none "GTiff" none
      (some 4)).1.projLib = some "C:\\two\\Library\\bin/../share/proj"
    ∧ pySplit ';' "/usr/local/bin:/usr/bin:/bin"
      = ["/usr/local/bin:/usr/bin:/bin"] :=
  c10_projlib_guess natLib ⟨none, "C:\\one;C:\\two\\Library\\bin;C:\\three"⟩
    "C:\\two\\Library\\bin" rfl rfl ["a.tif"] "out.tif" none none none false
    "cubic" none "GTiff" none (some 4)

end DemGetter
